/-
Verification of the chat API route of the firecrawl-ai-sdk demo
(src/app/api/chat/route.ts) against its natural-language specification.

The route's pure decision logic is shallowly embedded here:
  * the zod schemas (`scoutResponseSchema`, the `searchWeb` input schema)
    become Boolean validators over a JSON-like value type;
  * the tool `execute` functions become total Lean functions from an
    explicit adapter outcome (success payload or thrown value) to the
    result records the TypeScript code returns;
  * the agent loop, the transport handler and the stream tee, whose code
    lives in the `ai` SDK / platform rather than in the repository, are
    modelled from the specification and parameterised by the
    configuration the route supplies (`stepCountIs(10)`, `prepareStep`).

JavaScript peculiarities that matter to the claims are modelled
explicitly: `x || y` treats the empty string as falsy, absent object
fields are `Option.none`, and `slice(0, 400)` is a 400-character prefix.
-/
import Mathlib

namespace FirecrawlRoute

/-! ## A JSON-like value type

zod validates untyped JSON candidates; we mirror that with `JValue`.
JavaScript numbers are split into integral numbers (carrying their value,
which the bounds checks need) and non-integral ones (which every
`.int()` check rejects regardless of value). -/

inductive JValue where
  | null : JValue
  | bool (b : Bool) : JValue
  | str (s : String) : JValue
  | intNum (n : Int) : JValue
  | fracNum : JValue
  | arr (xs : List JValue) : JValue
  | obj (fields : List (String × JValue)) : JValue

/-- First binding of a key in an object's field list (JS objects cannot
hold duplicate keys; zod reads the property once). -/
def jlookup : List (String × JValue) → String → Option JValue
  | [], _ => none
  | (k, v) :: rest, key => if k = key then some v else jlookup rest key

def isStr : Option JValue → Bool
  | some (.str _) => true
  | _ => false

def isNullableStr : Option JValue → Bool
  | some (.str _) => true
  | some .null => true
  | _ => false

/-! ## scoutResponseSchema (route.ts lines 212-247)

The zod schema enforces field presence and types only; the
`taskCompleted`/`findings` consistency rules appear solely inside
`.describe(...)` strings, which zod does not evaluate. -/

def validTaskStatus (s : String) : Bool :=
  s = "completed" || s = "partial" || s = "not_found" || s = "insufficient_data"

def validConfidence (s : String) : Bool :=
  s = "high" || s = "medium" || s = "low"

/-- `z.object({title: z.string(), url: z.string(), publishedDate: z.string().nullable()})` -/
def validSource (v : JValue) : Bool :=
  match v with
  | .obj fs =>
      isStr (jlookup fs "title") &&
      isStr (jlookup fs "url") &&
      isNullableStr (jlookup fs "publishedDate")
  | _ => false

/-- One entry of `findings`: name/type strings, nullable launchDate,
`details: z.record(z.any())` (any object), enumerated confidence, and a
list of valid sources. -/
def validFinding (v : JValue) : Bool :=
  match v with
  | .obj fs =>
      isStr (jlookup fs "name") &&
      isStr (jlookup fs "type") &&
      isNullableStr (jlookup fs "launchDate") &&
      (match jlookup fs "details" with
       | some (.obj _) => true
       | _ => false) &&
      (match jlookup fs "confidence" with
       | some (.str s) => validConfidence s
       | _ => false) &&
      (match jlookup fs "sources" with
       | some (.arr xs) => xs.all validSource
       | _ => false)
  | _ => false

/-- The whole `scoutResponseSchema` parse, as a Boolean acceptance test:
every required field present with the declared type. -/
def scoutResponseValidate (v : JValue) : Bool :=
  match v with
  | .obj fs =>
      (match jlookup fs "taskCompleted" with
       | some (.bool _) => true
       | _ => false) &&
      (match jlookup fs "taskStatus" with
       | some (.str s) => validTaskStatus s
       | _ => false) &&
      isStr (jlookup fs "message") &&
      (match jlookup fs "findings" with
       | some (.arr xs) => xs.all validFinding
       | _ => false) &&
      (match jlookup fs "searchStrategies" with
       | some (.arr xs) => xs.all (fun x => isStr (some x))
       | _ => false) &&
      isNullableStr (jlookup fs "nextSteps")
  | _ => false

/-- Assemble a candidate structured result with the given `taskCompleted`,
`taskStatus`, `findings` and remaining fields; used to express what the
validator does and does not constrain. -/
def mkScoutCandidate (taskCompleted : Bool) (taskStatus : String)
    (message : String) (findings : List JValue)
    (searchStrategies : List String) (nextSteps : Option String) : JValue :=
  .obj [("taskCompleted", .bool taskCompleted),
        ("taskStatus", .str taskStatus),
        ("message", .str message),
        ("findings", .arr findings),
        ("searchStrategies", .arr (searchStrategies.map .str)),
        ("nextSteps", match nextSteps with | some s => .str s | none => .null)]

/-! ## searchWeb input schema (route.ts lines 72-94)

`query: z.string().min(3)`, `limit: z.number().int().min(1).max(10).default(5)`,
`tbs`/`location` optional strings, `categories`/`sources` optional arrays
over fixed enumerations. -/

inductive SearchCategory where
  | github | research | pdf
deriving DecidableEq, Repr

inductive SearchSource where
  | web | news | images
deriving DecidableEq, Repr

def parseCategory : JValue → Option SearchCategory
  | .str "github" => some .github
  | .str "research" => some .research
  | .str "pdf" => some .pdf
  | _ => none

def parseSource : JValue → Option SearchSource
  | .str "web" => some .web
  | .str "news" => some .news
  | .str "images" => some .images
  | _ => none

/-- The schema-validated input `execute` receives (after zod applies the
`limit` default of 5). -/
structure SearchWebInput where
  query : String
  limit : Int
  tbs : Option String
  location : Option String
  categories : Option (List SearchCategory)
  sources : Option (List SearchSource)
deriving DecidableEq, Repr

def traverseOption {α β : Type} (f : α → Option β) : List α → Option (List β)
  | [] => some []
  | x :: xs =>
      match f x, traverseOption f xs with
      | some y, some ys => some (y :: ys)
      | _, _ => none

/-- An optional field: absent is fine, a present value must parse. -/
def parseOptField {α : Type} (f : JValue → Option α) :
    Option JValue → Option (Option α)
  | none => some none
  | some v => match f v with
              | some a => some (some a)
              | none => none

/-- zod parse of the `searchWeb` input schema on an untyped candidate:
`none` is a validation failure, `some i` the validated input. -/
def searchWebInputParse (v : JValue) : Option SearchWebInput :=
  match v with
  | .obj fs =>
      match jlookup fs "query" with
      | some (.str q) =>
          if q.length < 3 then none
          else
            match (match jlookup fs "limit" with
                   | none => some 5
                   | some (.intNum n) => if 1 ≤ n ∧ n ≤ 10 then some n else none
                   | some _ => none) with
            | none => none
            | some lim =>
                match parseOptField (fun x => match x with
                        | .str s => some s | _ => none) (jlookup fs "tbs"),
                      parseOptField (fun x => match x with
                        | .str s => some s | _ => none) (jlookup fs "location"),
                      parseOptField (fun x => match x with
                        | .arr xs => traverseOption parseCategory xs
                        | _ => none) (jlookup fs "categories"),
                      parseOptField (fun x => match x with
                        | .arr xs => traverseOption parseSource xs
                        | _ => none) (jlookup fs "sources") with
                | some tbs, some loc, some cats, some srcs =>
                    some ⟨q, lim, tbs, loc, cats, srcs⟩
                | _, _, _, _ => none
      | _ => none
  | _ => none

/-! ## JavaScript string/option helpers -/

/-- JS `x || d` for an optional string `x`: falls through to `d` when the
field is absent or the string is empty (the empty string is falsy). -/
def jsOrStr : Option String → String → String
  | some s, d => if s = "" then d else s
  | none, d => d

/-- JS `s.slice(0, 400)`: the first 400 characters. -/
def jsSlice400 (s : String) : String :=
  String.mk (s.toList.take 400)

/-! ## Adapter outcomes

Every Firecrawl call either resolves to a payload or throws; `execute`
distinguishes only `Error` instances (whose `.message` it reads) from
any other thrown value. -/

inductive ThrownValue where
  | errorObj (message : String)
  | other
deriving DecidableEq, Repr

inductive AdapterOutcome (α : Type) where
  | ok (value : α)
  | thrown (err : ThrownValue)
deriving DecidableEq, Repr

/-- `error instanceof Error ? error.message : "Unknown Firecrawl error."` -/
def thrownMessage : ThrownValue → String
  | .errorObj m => m
  | .other => "Unknown Firecrawl error."

/-! ## scrapeWebsite tool (route.ts lines 23-60) -/

structure FirecrawlScrapeResponse where
  url : Option String
  markdown : Option String
  content : Option String
  metadataTitle : Option String
deriving DecidableEq, Repr

structure ScrapeResult where
  url : String
  title : String
  content : String
deriving DecidableEq, Repr

/-- The `execute` of `scrapeWebsiteTool`, total over every adapter
behaviour: missing key, resolved payload, or thrown value. -/
def scrapeWebsiteExecute (firecrawlConfigured : Bool)
    (adapter : AdapterOutcome FirecrawlScrapeResponse) (url : String) :
    ScrapeResult :=
  if !firecrawlConfigured then
    { url := url
      title := "Firecrawl key missing"
      content := "FIRECRAWL_API_KEY is not configured. Unable to scrape " ++ url ++ "." }
  else
    match adapter with
    | .ok data =>
        let markdown := (data.markdown.getD (data.content.getD ""))
        let title := data.metadataTitle.getD ""
        { url := url
          title := jsOrStr (some title) url
          content := "# " ++ jsOrStr (some title) url ++ "\n\n" ++ markdown }
    | .thrown err =>
        { url := url
          title := "Firecrawl scrape failed"
          content := "Scrape error: " ++ thrownMessage err }

/-! ## searchWeb tool (route.ts lines 95-181) -/

structure FirecrawlSearchItem where
  url : String
  title : Option String
  markdown : Option String
  description : Option String
  metadataTitle : Option String
  metadataPublishedTime : Option String
  category : Option String
deriving DecidableEq, Repr

/-- The search response, with one optional result list per source type;
the tool reads only `web`. -/
structure FirecrawlSearchResponse where
  web : Option (List FirecrawlSearchItem)
  news : Option (List FirecrawlSearchItem)
  images : Option (List FirecrawlSearchItem)
deriving DecidableEq, Repr

structure SearchResultEntry where
  title : String
  url : String
  snippet : String
  publishedTime : Option String
  category : Option String
deriving DecidableEq, Repr

/-- The `parameters` object of the returned result. The success path fills
every field (`tbs || "none"`, etc.); the degraded and failure paths echo
the raw optional inputs. -/
structure SearchParameters where
  tbs : Option String
  location : Option String
  categories : Option (List SearchCategory)
  sources : Option (List SearchSource)
deriving DecidableEq, Repr

/-- The tool's returned object; `none` models a field the JS object does
not carry (or carries as `undefined`) on that path. -/
structure SearchToolResult where
  query : String
  limit : Int
  parameters : SearchParameters
  results : List SearchResultEntry
  count : Option Nat
  content : Option String
  message : Option String
  note : Option String
  error : Option String
deriving DecidableEq, Repr

/-- `webResults.map(...)` (route.ts lines 132-138):
`title` falls through metadata title → item title → url → "Untitled",
`snippet` is the 400-character markdown prefix or else the full
description or else empty. -/
def searchResultOfItem (item : FirecrawlSearchItem) : SearchResultEntry :=
  { title := jsOrStr item.metadataTitle
      (jsOrStr item.title (jsOrStr (some item.url) "Untitled"))
    url := item.url
    snippet := jsOrStr (item.markdown.map jsSlice400) (jsOrStr item.description "")
    publishedTime := item.metadataPublishedTime
    category := item.category }

/-- One bullet of the summary (route.ts lines 140-147). `result.title` is
always a string, so the `??` fallbacks never fire; the remaining pieces
are JS truthiness checks. -/
def summaryLineOfResult (r : SearchResultEntry) : String :=
  let url := if r.url = "" then "" else " (" ++ r.url ++ ")"
  let snippet := if r.snippet = "" then "" else "\n> " ++ r.snippet
  let category := match r.category with
    | some c => if c = "" then "" else " [" ++ c ++ "]"
    | none => ""
  let published := match r.publishedTime with
    | some p => if p = "" then "" else " (Published: " ++ p ++ ")"
    | none => ""
  "- " ++ r.title ++ category ++ published ++ url ++ snippet

def searchSummary (query : String) (results : List SearchResultEntry) : String :=
  let header := "### Search results for \"" ++ query ++ "\"\n"
  match results with
  | [] => header ++ "- No results found."
  | _ => header ++ String.intercalate "\n" (results.map summaryLineOfResult)

/-- The `execute` of `searchWebTool`, total over every adapter behaviour. -/
def searchWebExecute (firecrawlConfigured : Bool)
    (adapter : AdapterOutcome FirecrawlSearchResponse)
    (input : SearchWebInput) : SearchToolResult :=
  if !firecrawlConfigured then
    { query := input.query, limit := input.limit
      parameters := ⟨input.tbs, input.location, input.categories, input.sources⟩
      results := [], count := none, content := none, message := none
      note := some "FIRECRAWL_API_KEY is not configured. Unable to perform search."
      error := none }
  else
    match adapter with
    | .ok response =>
        let webResults := response.web.getD []
        let results := webResults.map searchResultOfItem
        { query := input.query, limit := input.limit
          parameters :=
            ⟨some (jsOrStr input.tbs "none"),
             some (jsOrStr input.location "global"),
             some (input.categories.getD []),
             some (input.sources.getD [.web])⟩
          results := results
          count := some results.length
          content := some (searchSummary input.query results)
          message := if results.length = 0
            then some "No results returned from Firecrawl search" else none
          note := none, error := none }
    | .thrown err =>
        { query := input.query, limit := input.limit
          parameters := ⟨input.tbs, input.location, input.categories, input.sources⟩
          results := [], count := none, content := none, message := none
          note := none
          error := some (thrownMessage err) }

/-! ## Tool dispatch

Modelled from the spec: the SDK validates a tool call's arguments against
the tool's input schema before running `execute`; a validation failure
never reaches `execute` (and hence never reaches the adapter). The
dispatch returns the number of adapter calls made alongside the outcome. -/

/-- Modelled from the spec: schema-validated dispatch of a `searchWeb`
call. Returns `(outcome, adapterCalls)`. -/
def searchWebToolCall (firecrawlConfigured : Bool)
    (adapter : AdapterOutcome FirecrawlSearchResponse) (raw : JValue) :
    Except String SearchToolResult × Nat :=
  match searchWebInputParse raw with
  | none => (.error "invalid tool input", 0)
  | some input =>
      (.ok (searchWebExecute firecrawlConfigured adapter input),
       if firecrawlConfigured then 1 else 0)

/-! ## The agent loop (spec §4.2, configured at route.ts lines 409-423)

The loop itself lives in the `ai` SDK; the route supplies
`stopWhen: stepCountIs(10)` and `prepareStep`. Modelled from the spec:
states `RUNNING(n)` / `FINISHED` / `ABORTED`, one model invocation per
running step, tool-call responses advance the step counter, a final
structured object finishes, and exceeding the ceiling aborts with
`"step_limit_exceeded"`. -/

def chatAgentMaxSteps : Nat := 10

inductive ModelAction where
  | toolCalls (calls : List String)
  | finalResult (result : JValue)
  | text (s : String)

inductive LoopState where
  | running (n : Nat)
  | finished (result : JValue)
  | aborted (reason : String)

/-- Modelled from the spec: run the loop from step `n` with the given
fuel, recording the trace of steps at which the model was invoked.
`model` maps a (1-based) step number to the model's action. -/
def agentRunFrom (model : Nat → ModelAction) (max : Nat) :
    Nat → Nat → LoopState × List Nat
  | 0, n => (.running n, [])
  | fuel + 1, n =>
      if n > max then (.aborted "step_limit_exceeded", [])
      else
        match model n with
        | .finalResult r => (.finished r, [n])
        | _ =>
            let rest := agentRunFrom model max fuel (n + 1)
            (rest.1, n :: rest.2)

/-- Modelled from the spec: the whole loop run, starting at `RUNNING(1)`
with enough fuel to reach the ceiling. -/
def agentLoopRun (model : Nat → ModelAction) (max : Nat) :
    LoopState × List Nat :=
  agentRunFrom model max (max + 1) 1

/-! ## prepareStep and the per-step model invocation (route.ts 415-422)

The SDK's `prepareStep` receives a 0-based `stepNumber`; the route
injects a wrap-up system directive exactly at `stepNumber === 9`, the
last of the 10 allowed steps. -/

/-- `chatAgent.prepareStep`: the system-prompt override, when any. -/
def chatAgentPrepareStep (stepNumber : Nat) : Option String :=
  if stepNumber = 9 then
    some ("You're approaching your step limit (step " ++ toString (stepNumber + 1) ++
      " of 10). Consider wrapping up your search and preparing your response.")
  else
    none

/-- The tool catalog the route registers (route.ts lines 409-412). -/
def chatAgentToolNames : List String := ["scrapeWebsite", "searchWeb"]

structure StepInvocation where
  history : List String
  tools : List String
  structuredOutput : Bool
  injectedSystem : Option String
deriving DecidableEq, Repr

/-- Modelled from the spec: what the loop hands the model capability at a
running step — the full message history, the tool catalog, the
structured-output contract, plus any `prepareStep` override. -/
def chatAgentInvocation (history : List String) (stepNumber : Nat) :
    StepInvocation :=
  { history := history
    tools := chatAgentToolNames
    structuredOutput := true
    injectedSystem := chatAgentPrepareStep stepNumber }

/-! ## The POST transport handler (route.ts lines 431-517) -/

structure Env where
  openaiKey : Option String
  firecrawlKey : Option String
deriving DecidableEq, Repr

/-- The parsed-or-not request body: `req.json()` either throws (malformed)
or yields an object whose `messages` field may be absent. -/
inductive RequestBody where
  | malformed
  | json (messages : Option (List String))
deriving DecidableEq, Repr

inductive PostResponse where
  | jsonError (error : String) (status : Nat)
  | stream (events : List String)
deriving DecidableEq, Repr

/-- Side effects of one `POST` run that the claims track. -/
structure PostTrace where
  modelInvocations : Nat
  toolCalls : Nat
deriving DecidableEq, Repr

/-- What invoking the agent on a validated history produces: its event
stream and how many model invocations / tool calls it made. Opaque to
`POST`, which only threads it through. -/
structure AgentBehaviour where
  events : List String → List String
  modelInvocations : List String → Nat
  toolCalls : List String → Nat

/-- `POST`: missing `OPENAI_API_KEY` → 400 before anything runs;
malformed JSON → 400; otherwise missing `messages` is treated as empty
and the agent's stream is returned. -/
def POST (env : Env) (body : RequestBody) (agent : AgentBehaviour) :
    PostResponse × PostTrace :=
  match env.openaiKey with
  | none => (.jsonError "Set OPENAI_API_KEY to enable the chat." 400, ⟨0, 0⟩)
  | some _ =>
      match body with
      | .malformed => (.jsonError "Invalid JSON payload." 400, ⟨0, 0⟩)
      | .json messages =>
          let msgs := messages.getD []
          (.stream (agent.events msgs),
           ⟨agent.modelInvocations msgs, agent.toolCalls msgs⟩)

/-! ## The stream tee and the logging branch (route.ts lines 469-516)

`response.body.tee()` is platform code. Modelled from the spec: the tee
hands each of the two consumers every source event exactly once. The
logging branch's line handling (parse `0:`-prefixed lines, skip
everything unparseable) is embedded from the source; the client branch
is returned untouched, so no behaviour of the logging side appears in
it. -/

/-- Modelled from the spec: duplicate the source stream; both branches
carry exactly the source's events, in order. -/
def streamTee (source : List String) : List String × List String :=
  (source, source)

/-- What the logging IIFE does with one line: lines not starting with
`0:` are skipped, and a failing JSON parse (modelled by the `parse`
argument returning `none`) is swallowed by the inner `catch`. -/
def logLine (parse : String → Option JValue) (line : String) :
    Option JValue :=
  if line.startsWith "0:" then parse (line.drop 2) else none

/-- The whole logging branch: best effort over every line, never anything
but a list of parsed log records. -/
def logBranchRun (parse : String → Option JValue) (lines : List String) :
    List JValue :=
  lines.filterMap (logLine parse)

/-- The client-facing branch of the teed response, as returned by `POST`:
the second branch of the tee, independent of the logging branch's
`parse` behaviour. -/
def clientBranch (source : List String) : List String :=
  (streamTee source).2

/-- What each consumer of the teed stream ends up with: the logging
branch's parsed records and the client branch's events. -/
def postStreamResult (source : List String)
    (parse : String → Option JValue) : List JValue × List String :=
  (logBranchRun parse (streamTee source).1, (streamTee source).2)

/-! ## Auxiliary accessors used by the theorems -/

/-- Read a field of a candidate object. -/
def scoutField (v : JValue) (k : String) : Option JValue :=
  match v with
  | .obj fs => jlookup fs k
  | _ => none

/-- The JSON object a `ScrapeResult` serialises to: exactly the three
keys the TypeScript literal carries. -/
def ScrapeResult.toJValue (r : ScrapeResult) : JValue :=
  .obj [("url", .str r.url), ("title", .str r.title), ("content", .str r.content)]

def hasField (v : JValue) (k : String) : Bool :=
  match v with
  | .obj fs => (jlookup fs k).isSome
  | _ => false

/-! ## Concrete inputs used by witnesses and counterexamples -/

/-- A well-formed raw `searchWeb` call: `{query: "valid query", limit: 5}`. -/
def validSearchRaw : JValue :=
  .obj [("query", .str "valid query"), ("limit", .intNum 5)]

/-- A 401-character description string. -/
def longDescription : String := String.mk (List.replicate 401 'a')

/-- A search hit with no markdown and a 401-character description. -/
def longDescriptionItem : FirecrawlSearchItem :=
  ⟨"https://example.com/a", none, none, some longDescription, none, none, none⟩

/-- A minimal valid `searchWeb` input. -/
def plainSearchInput : SearchWebInput :=
  ⟨"q123", 5, none, none, none, none⟩

/-! # Theorems for the claims -/

/-- C1, counterexample: the candidate with `taskCompleted = true` and
`findings = []` violates the claimed invariant yet is accepted by the
schema validation — zod checks field shapes only, the cross-field rules
live in `.describe` strings it never evaluates. -/
theorem C1_invariant_counterexample :
    scoutResponseValidate (mkScoutCandidate true "completed" "done" [] [] none) = true ∧
    scoutField (mkScoutCandidate true "completed" "done" [] [] none) "taskCompleted" =
      some (.bool true) ∧
    scoutField (mkScoutCandidate true "completed" "done" [] [] none) "findings" =
      some (.arr []) :=
  ⟨rfl, rfl, rfl⟩

/-- C1, amended: the structured-output validation accepts every candidate
whose fields are well-typed (boolean `taskCompleted`, enumerated
`taskStatus`, string `message`, well-shaped findings, string strategies,
nullable `nextSteps`) regardless of the relation between `taskCompleted`,
`taskStatus` and `findings`; in particular `taskCompleted = true` with
`findings = []` is accepted, not rejected. -/
theorem C1_shape_only_validation (b : Bool) (status message : String)
    (findings : List JValue) (strategies : List String) (next : Option String)
    (hstatus : validTaskStatus status = true)
    (hfindings : findings.all validFinding = true) :
    scoutResponseValidate
      (mkScoutCandidate b status message findings strategies next) = true := by
  cases next <;>
    simp [scoutResponseValidate, mkScoutCandidate, jlookup, isStr, isNullableStr,
      hstatus, hfindings, List.all_map, Function.comp]

/-- C1, witness for the amended theorem: a concrete accepted candidate
with `taskCompleted = true`, `taskStatus = "partial"` and no findings. -/
theorem C1_shape_only_validation_witness :
    validTaskStatus "partial" = true ∧
    ([] : List JValue).all validFinding = true ∧
    scoutResponseValidate (mkScoutCandidate true "partial" "m" [] [] none) = true :=
  ⟨rfl, rfl, C1_shape_only_validation true "partial" "m" [] [] none rfl rfl⟩

/-- C3: with the model-provider credential absent, `POST` returns the
400 error response with its error message and performs no model
invocation and no tool call, whatever the body and agent behaviour. -/
theorem C3_missing_credential_short_circuits (firecrawlKey : Option String)
    (body : RequestBody) (agent : AgentBehaviour) :
    POST ⟨none, firecrawlKey⟩ body agent =
      (.jsonError "Set OPENAI_API_KEY to enable the chat." 400, ⟨0, 0⟩) :=
  rfl

/-- C4, counterexample: when the scrape adapter throws, `scrapeWebsite`
returns a result whose three fields are `url`, `title` and `content` —
the error message is embedded in `content`, and the result carries
neither an `error` nor a `note` field, contradicting the claim. -/
theorem C4_scrape_failure_counterexample :
    scrapeWebsiteExecute true (.thrown (.errorObj "boom")) "https://example.com" =
      ⟨"https://example.com", "Firecrawl scrape failed", "Scrape error: boom"⟩ ∧
    hasField (ScrapeResult.toJValue
      (scrapeWebsiteExecute true (.thrown (.errorObj "boom")) "https://example.com"))
      "error" = false ∧
    hasField (ScrapeResult.toJValue
      (scrapeWebsiteExecute true (.thrown (.errorObj "boom")) "https://example.com"))
      "note" = false :=
  ⟨rfl, rfl, rfl⟩

/-- C4, amended: neither tool ever propagates a thrown value — both
`execute` functions are total and return result objects for every
adapter behaviour. `searchWeb` converts adapter failures into a result
carrying the `error` field (and a missing credential into one carrying
`note`); `scrapeWebsite` converts failures into a result whose `title`
is "Firecrawl scrape failed" and whose `content` embeds the error
message, with no `error` or `note` field. -/
theorem C4_tools_never_throw (t : ThrownValue) (url : String)
    (input : SearchWebInput) (adapter : AdapterOutcome FirecrawlSearchResponse) :
    scrapeWebsiteExecute true (.thrown t) url =
      ⟨url, "Firecrawl scrape failed", "Scrape error: " ++ thrownMessage t⟩ ∧
    (searchWebExecute true (.thrown t) input).error = some (thrownMessage t) ∧
    (searchWebExecute true (.thrown t) input).results = [] ∧
    (searchWebExecute false adapter input).note =
      some "FIRECRAWL_API_KEY is not configured. Unable to perform search." ∧
    (searchWebExecute false adapter input).results = [] :=
  ⟨rfl, rfl, rfl, rfl, rfl⟩

/-- C9: the tee hands both the logging branch and the client branch
exactly the source's events, and the client branch's delivered sequence
is the source itself, identical under any two logging-parse behaviours —
a failing logging branch cannot alter it. -/
theorem C9_tee_isolation (source : List String)
    (parse failingParse : String → Option JValue) :
    (streamTee source).1 = source ∧
    (streamTee source).2 = source ∧
    (postStreamResult source parse).2 = source ∧
    (postStreamResult source failingParse).2 = (postStreamResult source parse).2 :=
  ⟨rfl, rfl, rfl, rfl⟩

/-- C10: `searchWeb` builds its results exclusively from the adapter
response's `web` field — the whole tool result is unchanged under any
replacement of the `news` and `images` fields (for every input,
including ones explicitly requesting those sources), results are exactly
the mapped `web` entries, and an absent `web` field yields no results. -/
theorem C10_results_from_web_only (input : SearchWebInput)
    (web news images news2 images2 : Option (List FirecrawlSearchItem)) :
    searchWebExecute true (.ok ⟨web, news, images⟩) input =
      searchWebExecute true (.ok ⟨web, news2, images2⟩) input ∧
    (searchWebExecute true (.ok ⟨web, news, images⟩) input).results =
      (web.getD []).map searchResultOfItem ∧
    (searchWebExecute true (.ok ⟨none, news, images⟩) input).results = [] :=
  ⟨rfl, rfl, rfl⟩

/-- Under a model that always answers with tool calls, no amount of fuel
from any starting step makes the loop reach `finished`. -/
theorem agentRunFrom_not_finished (model : Nat → ModelAction) (max : Nat)
    (h : ∀ n, ∃ cs, model n = .toolCalls cs) :
    ∀ fuel n r, (agentRunFrom model max fuel n).1 ≠ .finished r := by
  intro fuel
  induction fuel with
  | zero => intro n r; simp [agentRunFrom]
  | succ k ih =>
      intro n r
      obtain ⟨cs, hcs⟩ := h n
      simp only [agentRunFrom]
      split
      · simp
      · rw [hcs]
        exact ih (n + 1) r

/-- Under a model that always answers with tool calls, the run from step
`n` with exactly enough fuel to cross the ceiling aborts with
`"step_limit_exceeded"` after invoking the model at steps `n..max`. -/
theorem agentRunFrom_all_tools (model : Nat → ModelAction) (max : Nat)
    (h : ∀ n, ∃ cs, model n = .toolCalls cs) :
    ∀ fuel n, n + fuel = max + 2 → n ≤ max + 1 →
      agentRunFrom model max fuel n =
        (.aborted "step_limit_exceeded", List.range' n (max + 1 - n)) := by
  intro fuel
  induction fuel with
  | zero => intro n h1 h2; omega
  | succ k ih =>
      intro n h1 h2
      obtain ⟨cs, hcs⟩ := h n
      simp only [agentRunFrom]
      split
      · have hn : n = max + 1 := by omega
        subst hn
        simp
      · have hn : n ≤ max := by omega
        rw [hcs]
        rw [ih (n + 1) (by omega) (by omega)]
        have hm : max + 1 - n = (max - n) + 1 := by omega
        rw [hm, List.range'_succ]
        have hm2 : max + 1 - (n + 1) = max - n := by omega
        rw [hm2]

/-- C2: with the route's ceiling of 10 steps, a model capability that
requests tool calls at every step drives the loop to
`ABORTED("step_limit_exceeded")` after invoking the model at exactly the
ten steps 1..10, and no run under such a model ever reaches `FINISHED`. -/
theorem C2_step_limit_abort (model : Nat → ModelAction)
    (h : ∀ n, ∃ cs, model n = .toolCalls cs) :
    (agentLoopRun model chatAgentMaxSteps).1 = .aborted "step_limit_exceeded" ∧
    (agentLoopRun model chatAgentMaxSteps).2 = [1, 2, 3, 4, 5, 6, 7, 8, 9, 10] ∧
    ∀ fuel n r, (agentRunFrom model chatAgentMaxSteps fuel n).1 ≠ .finished r := by
  have hrun := agentRunFrom_all_tools model chatAgentMaxSteps h
    (chatAgentMaxSteps + 1) 1 (by omega) (by omega)
  refine ⟨?_, ?_, agentRunFrom_not_finished model chatAgentMaxSteps h⟩
  · rw [agentLoopRun, hrun]
  · rw [agentLoopRun, hrun]
    rfl

/-- C2, witness: the concrete model capability that always calls
`searchWeb` satisfies the hypothesis and is driven to the abort state. -/
theorem C2_step_limit_abort_witness :
    (∀ n, ∃ cs, (fun _ : Nat => ModelAction.toolCalls ["searchWeb"]) n =
      ModelAction.toolCalls cs) ∧
    (agentLoopRun (fun _ : Nat => ModelAction.toolCalls ["searchWeb"])
      chatAgentMaxSteps).1 = .aborted "step_limit_exceeded" :=
  ⟨fun _ => ⟨["searchWeb"], rfl⟩,
   (C2_step_limit_abort (fun _ : Nat => ModelAction.toolCalls ["searchWeb"])
     (fun _ => ⟨["searchWeb"], rfl⟩)).1⟩

/-- C5: the `searchWeb` input schema admits only queries of length at
least 3 and limits in [1,10] (an omitted limit defaults to 5); any
candidate it rejects is turned away by the dispatch with zero adapter
calls; and the concrete candidate `{query: "ab"}` is rejected. -/
theorem C5_search_input_validation :
    (∀ v i, searchWebInputParse v = some i →
      3 ≤ i.query.length ∧ 1 ≤ i.limit ∧ i.limit ≤ 10) ∧
    (∀ conf adapter v, searchWebInputParse v = none →
      searchWebToolCall conf adapter v = (.error "invalid tool input", 0)) ∧
    searchWebInputParse (.obj [("query", .str "ab")]) = none := by
  refine ⟨?_, ?_, by decide⟩
  · intro v i h
    cases v with
    | obj fs =>
        simp only [searchWebInputParse] at h
        split at h
        next q hq =>
          split at h
          next => exact absurd h (by simp)
          next hlen =>
            split at h
            next => exact absurd h (by simp)
            next lim hlim =>
              split at h
              next tbs loc cats srcs h1 h2 h3 h4 =>
                cases h
                dsimp only
                refine ⟨by omega, ?_⟩
                split at hlim
                next => cases hlim; omega
                next n =>
                  split at hlim
                  next hcond => cases hlim; omega
                  next => exact absurd hlim (by simp)
                next => exact absurd hlim (by simp)
              next => exact absurd h (by simp)
        next => exact absurd h (by simp)
    | null => exact absurd h (by simp [searchWebInputParse])
    | bool b => exact absurd h (by simp [searchWebInputParse])
    | str s => exact absurd h (by simp [searchWebInputParse])
    | intNum n => exact absurd h (by simp [searchWebInputParse])
    | fracNum => exact absurd h (by simp [searchWebInputParse])
    | arr xs => exact absurd h (by simp [searchWebInputParse])
  · intro conf adapter v h
    simp [searchWebToolCall, h]

/-- C5, witness: `query = "ab"` fails validation and the dispatch makes
no adapter call on it. -/
theorem C5_search_input_validation_witness :
    searchWebInputParse (.obj [("query", .str "ab")]) = none ∧
    searchWebToolCall true (.ok ⟨none, none, none⟩)
      (.obj [("query", .str "ab")]) = (.error "invalid tool input", 0) :=
  ⟨C5_search_input_validation.2.2,
   C5_search_input_validation.2.1 true (.ok ⟨none, none, none⟩) _
     C5_search_input_validation.2.2⟩

/-- C6: a valid `searchWeb` call made while no Firecrawl adapter is
configured returns (rather than throws) a result with empty `results`
and the explanatory `note`, echoing the call's raw parameters, and makes
zero adapter calls. -/
theorem C6_no_adapter_degrades (raw : JValue) (i : SearchWebInput)
    (adapter : AdapterOutcome FirecrawlSearchResponse)
    (h : searchWebInputParse raw = some i) :
    searchWebToolCall false adapter raw =
      (.ok { query := i.query, limit := i.limit
             parameters := ⟨i.tbs, i.location, i.categories, i.sources⟩
             results := [], count := none, content := none, message := none
             note := some "FIRECRAWL_API_KEY is not configured. Unable to perform search."
             error := none }, 0) := by
  simp [searchWebToolCall, h, searchWebExecute]

/-- C6, witness: the call `{query: "valid query", limit: 5}` parses and,
with no adapter, yields the degraded result. -/
theorem C6_no_adapter_degrades_witness :
    searchWebInputParse validSearchRaw =
      some ⟨"valid query", 5, none, none, none, none⟩ ∧
    searchWebToolCall false (.ok ⟨none, none, none⟩) validSearchRaw =
      (.ok { query := "valid query", limit := 5
             parameters := ⟨none, none, none, none⟩
             results := [], count := none, content := none, message := none
             note := some "FIRECRAWL_API_KEY is not configured. Unable to perform search."
             error := none }, 0) :=
  ⟨by decide,
   C6_no_adapter_degrades validSearchRaw ⟨"valid query", 5, none, none, none, none⟩
     (.ok ⟨none, none, none⟩) (by decide)⟩

/-- C7: the model invocation at 0-based step `n` always carries the full
message history, the registered tool catalog and the structured-output
contract, and the wrap-up system directive is injected exactly when
`n = 9 = max - 1` (the directive itself announcing "step 10 of 10"). -/
theorem C7_wrapup_directive (history : List String) (n : Nat) :
    chatAgentInvocation history n =
      ⟨history, chatAgentToolNames, true, chatAgentPrepareStep n⟩ ∧
    ((chatAgentPrepareStep n).isSome = true ↔ n = chatAgentMaxSteps - 1) ∧
    chatAgentPrepareStep (chatAgentMaxSteps - 1) =
      some ("You're approaching your step limit (step 10 of 10). " ++
        "Consider wrapping up your search and preparing your response.") := by
  refine ⟨rfl, ?_, by decide⟩
  by_cases hn : n = 9 <;> simp [chatAgentPrepareStep, chatAgentMaxSteps, hn]

/-- The 400-character slice never exceeds 400 characters. -/
theorem jsSlice400_length_le (s : String) : (jsSlice400 s).length ≤ 400 := by
  show (s.toList.take 400).length ≤ 400
  rw [List.length_take]
  exact min_le_left _ _

/-- JS `x || ""` on an optional string is just its default value. -/
theorem jsOrStr_empty_default (o : Option String) : jsOrStr o "" = o.getD "" := by
  cases o with
  | none => rfl
  | some s =>
      by_cases hs : s = "" <;> simp [jsOrStr, hs]

/-- Each entry's snippet is the (at most 400-character) markdown prefix,
or else the item's full description, or else empty. -/
theorem searchResultOfItem_snippet (item : FirecrawlSearchItem) :
    (searchResultOfItem item).snippet.length ≤ 400 ∨
    (searchResultOfItem item).snippet = item.description.getD "" := by
  unfold searchResultOfItem
  cases hm : item.markdown with
  | none => right; simpa [jsOrStr] using jsOrStr_empty_default item.description
  | some m =>
      by_cases hs : jsSlice400 m = ""
      · right
        simpa [jsOrStr, hs] using jsOrStr_empty_default item.description
      · left
        simpa [jsOrStr, hs] using jsSlice400_length_le m

/-- C8, counterexample: an adapter hit carrying no markdown and a
401-character description produces a result entry whose snippet is that
full description — 401 characters, exceeding the claimed 400-character
bound. -/
theorem C8_snippet_counterexample :
    (searchWebExecute true (.ok ⟨some [longDescriptionItem], none, none⟩)
      plainSearchInput).results =
      [⟨"https://example.com/a", "https://example.com/a", longDescription,
        none, none⟩] ∧
    longDescription.length = 401 := by
  constructor
  · rfl
  · show (List.replicate 401 'a').length = 401
    rw [List.length_replicate]

/-- C8, amended: every successful `searchWeb` result carries the claimed
shape with `count` equal to the number of results, entries mapped from
the adapter's `web` hits, `content` holding the summary (a fallback
notice when there are no results) and `message` set exactly when
`results` is empty; each snippet is the at-most-400-character markdown
prefix or else the item's full description (which may be longer) or
empty. -/
theorem C8_success_result_shape (input : SearchWebInput)
    (resp : FirecrawlSearchResponse) (item : FirecrawlSearchItem) :
    (searchWebExecute true (.ok resp) input).query = input.query ∧
    (searchWebExecute true (.ok resp) input).limit = input.limit ∧
    (searchWebExecute true (.ok resp) input).results =
      (resp.web.getD []).map searchResultOfItem ∧
    (searchWebExecute true (.ok resp) input).count =
      some ((resp.web.getD []).map searchResultOfItem).length ∧
    (searchWebExecute true (.ok resp) input).content =
      some (searchSummary input.query ((resp.web.getD []).map searchResultOfItem)) ∧
    (searchWebExecute true (.ok resp) input).message =
      (if ((resp.web.getD []).map searchResultOfItem).length = 0
        then some "No results returned from Firecrawl search" else none) ∧
    searchSummary input.query [] =
      "### Search results for \"" ++ input.query ++ "\"\n" ++ "- No results found." ∧
    ((searchResultOfItem item).snippet.length ≤ 400 ∨
      (searchResultOfItem item).snippet = item.description.getD "") :=
  ⟨rfl, rfl, rfl, rfl, rfl, rfl, rfl, searchResultOfItem_snippet item⟩

end FirecrawlRoute
